import Mathlib

/-!
Verification development for the registry / key-derivation core of the
skynet-rs client (src/registry.rs, src/crypto.rs, src/util.rs, src/error.rs).

Modelling conventions:
* Rust byte sequences (`Vec<u8>`, `[u8; n]`) and Rust strings (UTF-8) are
  both modelled as `List Nat`, each element a byte value; byte reads are
  reduced `% 256`, mirroring the `u8` type bound.
* `u64` values are modelled as `Nat` (no arithmetic overflowing 64 bits is
  performed on them by the modelled code).
* The BLAKE2b, SHA-256, HMAC and PBKDF2 primitives come from an external
  crate whose sources are not part of this repository; they are implemented
  here concretely following their standard definitions (RFC 7693, FIPS
  180-4, RFC 2104, RFC 2898), which is what the spec names.
* The ed25519 primitives (`ed25519::keypair/signature/verify`) are likewise
  external; where only their interface matters they appear as function
  parameters, and for the sign/verify algebra they are modelled abstractly
  over a group (see `EdScheme` below).
* Asynchronous HTTP I/O is modelled by passing the transport outcome (the
  raw response body, or a transport failure) as an explicit argument to the
  response-processing function.
-/

/-! ## Byte-level helpers -/

/-- Bytes of an ASCII Lean string literal (used for the ASCII string
constants appearing in the source; for ASCII text this coincides with the
UTF-8 bytes). -/
def asciiBytes (s : String) : List Nat :=
  s.data.map Char.toNat

/-- Decimal ASCII representation of a natural number, as produced by Rust
`u64::to_string`. -/
def decimalBytes (n : Nat) : List Nat :=
  asciiBytes (Nat.repr n)

/-- Lower-case hex digit for a nibble, as produced by the Rust `hex` crate
encoder (`0`..`9`, `a`..`f`). -/
def hexCharCode (n : Nat) : Nat :=
  if n < 10 then 48 + n else 87 + n

/-- Lower-case hex encoding of a byte sequence (`ToHex::encode_hex` of the
Rust `hex` crate): high nibble first, then low nibble, per byte. -/
def hexEncode (bs : List Nat) : List Nat :=
  bs.foldr (fun b acc => hexCharCode (b / 16 % 16) :: hexCharCode (b % 16) :: acc) []

/-- Value of one hex digit byte, accepting both cases
(`FromHex` of the Rust `hex` crate accepts `0-9a-fA-F`). -/
def hexDigitVal (c : Nat) : Option Nat :=
  if 48 ≤ c ∧ c ≤ 57 then some (c - 48)
  else if 97 ≤ c ∧ c ≤ 102 then some (c - 87)
  else if 65 ≤ c ∧ c ≤ 70 then some (c - 55)
  else none

/-- Hex decoding of a byte string (`FromHex::from_hex` for `Vec<u8>` of the
Rust `hex` crate): requires even length and valid hex digits, `none`
otherwise. -/
def hexDecode : List Nat → Option (List Nat)
  | [] => some []
  | [_] => none
  | a :: b :: rest =>
    match hexDigitVal a, hexDigitVal b, hexDecode rest with
    | some hi, some lo, some tl => some ((16 * hi + lo) :: tl)
    | _, _, _ => none

/-- Strict UTF-8 validity of a byte sequence, as checked by Rust
`str::from_utf8` (rejects overlong encodings, surrogates and values above
U+10FFFF). -/
def utf8ContByte (c : Nat) : Bool :=
  128 ≤ c && c ≤ 191

def utf8Valid : List Nat → Bool
  | [] => true
  | b :: rest =>
    if b < 128 then utf8Valid rest
    else if b < 194 then false
    else if b ≤ 223 then
      match rest with
      | c1 :: r => utf8ContByte c1 && utf8Valid r
      | [] => false
    else if b ≤ 239 then
      match rest with
      | c1 :: c2 :: r =>
        (((if b = 224 then 160 else 128) ≤ c1) &&
         (c1 ≤ (if b = 237 then 159 else 191))) &&
        utf8ContByte c2 && utf8Valid r
      | _ => false
    else if b ≤ 244 then
      match rest with
      | c1 :: c2 :: c3 :: r =>
        (((if b = 240 then 144 else 128) ≤ c1) &&
         (c1 ≤ (if b = 244 then 143 else 191))) &&
        utf8ContByte c2 && utf8ContByte c3 && utf8Valid r
      | _ => false
    else false

/-! ## BLAKE2b (RFC 7693)

Concrete implementation of the unkeyed BLAKE2b hash with selectable digest
length `nn` (valid digest lengths are 1..=64 bytes).  64-bit words are
`Nat` values kept below `2 ^ 64` by explicit reduction. -/

def M64 : Nat := 2 ^ 64

def add64 (a b : Nat) : Nat := (a + b) % M64

def xor64 (a b : Nat) : Nat := Nat.xor a b

/-- Right rotation of a 64-bit word. -/
def ror64 (x n : Nat) : Nat :=
  (x / 2 ^ n + x % 2 ^ n * 2 ^ (64 - n)) % M64

/-- Working vector of the BLAKE2b compression function. -/
structure B2V where
  v0 : Nat
  v1 : Nat
  v2 : Nat
  v3 : Nat
  v4 : Nat
  v5 : Nat
  v6 : Nat
  v7 : Nat
  v8 : Nat
  v9 : Nat
  v10 : Nat
  v11 : Nat
  v12 : Nat
  v13 : Nat
  v14 : Nat
  v15 : Nat

/-- Chaining state of BLAKE2b: eight 64-bit words. -/
structure B2St where
  h0 : Nat
  h1 : Nat
  h2 : Nat
  h3 : Nat
  h4 : Nat
  h5 : Nat
  h6 : Nat
  h7 : Nat

/-- Result quadruple of the BLAKE2b mixing function G. -/
structure B2Q where
  qa : Nat
  qb : Nat
  qc : Nat
  qd : Nat

/-- The BLAKE2b mixing function G (RFC 7693 §3.1). -/
def b2g (a b c d x y : Nat) : B2Q :=
  let a := add64 (add64 a b) x
  let d := ror64 (xor64 d a) 32
  let c := add64 c d
  let b := ror64 (xor64 b c) 24
  let a := add64 (add64 a b) y
  let d := ror64 (xor64 d a) 16
  let c := add64 c d
  let b := ror64 (xor64 b c) 63
  ⟨a, b, c, d⟩

/-- BLAKE2b message-schedule permutations (RFC 7693 §2.7). -/
def blakeSchedule : List (List Nat) :=
  [[0, 1, 2, 3, 4, 5, 6, 7, 8, 9, 10, 11, 12, 13, 14, 15],
   [14, 10, 4, 8, 9, 15, 13, 6, 1, 12, 0, 2, 11, 7, 5, 3],
   [11, 8, 12, 0, 5, 2, 15, 13, 10, 14, 3, 6, 7, 1, 9, 4],
   [7, 9, 3, 1, 13, 12, 11, 14, 2, 6, 5, 10, 4, 0, 15, 8],
   [9, 0, 5, 7, 2, 4, 10, 15, 14, 1, 11, 12, 6, 8, 3, 13],
   [2, 12, 6, 10, 0, 11, 8, 3, 4, 13, 7, 5, 15, 14, 1, 9],
   [12, 5, 1, 15, 14, 13, 4, 10, 0, 7, 6, 3, 9, 2, 8, 11],
   [13, 11, 7, 14, 12, 1, 3, 9, 5, 0, 15, 4, 8, 6, 2, 10],
   [6, 15, 14, 9, 11, 3, 0, 8, 12, 2, 13, 7, 1, 4, 10, 5],
   [10, 2, 8, 4, 7, 6, 1, 5, 15, 11, 9, 14, 3, 12, 13, 0]]

/-- Message word selected by a schedule row. -/
def mw (m s : List Nat) (i : Nat) : Nat :=
  m.getD (s.getD i 0) 0

/-- One round of the BLAKE2b compression function: the four column steps
followed by the four diagonal steps. -/
def b2round (v : B2V) (m s : List Nat) : B2V :=
  let g0 := b2g v.v0 v.v4 v.v8 v.v12 (mw m s 0) (mw m s 1)
  let g1 := b2g v.v1 v.v5 v.v9 v.v13 (mw m s 2) (mw m s 3)
  let g2 := b2g v.v2 v.v6 v.v10 v.v14 (mw m s 4) (mw m s 5)
  let g3 := b2g v.v3 v.v7 v.v11 v.v15 (mw m s 6) (mw m s 7)
  let d0 := b2g g0.qa g1.qb g2.qc g3.qd (mw m s 8) (mw m s 9)
  let d1 := b2g g1.qa g2.qb g3.qc g0.qd (mw m s 10) (mw m s 11)
  let d2 := b2g g2.qa g3.qb g0.qc g1.qd (mw m s 12) (mw m s 13)
  let d3 := b2g g3.qa g0.qb g1.qc g2.qd (mw m s 14) (mw m s 15)
  ⟨d0.qa, d1.qa, d2.qa, d3.qa,
   d3.qb, d0.qb, d1.qb, d2.qb,
   d2.qc, d3.qc, d0.qc, d1.qc,
   d1.qd, d2.qd, d3.qd, d0.qd⟩

/-- BLAKE2b initialisation vector (RFC 7693 §2.6). -/
def blakeIV : B2St :=
  ⟨7640891576956012808, 13503953896175478587,
   4354685564936845355, 11912009170470909681,
   5840696475078001361, 11170449401992604703,
   2270897969802886507, 6620516959819538809⟩

/-- Initial chaining state for an unkeyed hash of digest length `nn`:
the IV with the parameter block word (`0x01010000 xor nn`) mixed into
`h0`. -/
def b2init (nn : Nat) : B2St :=
  ⟨xor64 blakeIV.h0 (Nat.xor 0x01010000 (nn % 256)),
   blakeIV.h1, blakeIV.h2, blakeIV.h3, blakeIV.h4, blakeIV.h5, blakeIV.h6, blakeIV.h7⟩

/-- The BLAKE2b compression function F (RFC 7693 §3.2): `m` is the list of
16 message words, `t` the byte offset counter, `f` the final-block flag. -/
def b2compress (h : B2St) (m : List Nat) (t : Nat) (f : Bool) : B2St :=
  let v : B2V :=
    ⟨h.h0, h.h1, h.h2, h.h3, h.h4, h.h5, h.h6, h.h7,
     blakeIV.h0, blakeIV.h1, blakeIV.h2, blakeIV.h3,
     xor64 blakeIV.h4 (t % M64), xor64 blakeIV.h5 (t / M64 % M64),
     if f then xor64 blakeIV.h6 (M64 - 1) else blakeIV.h6, blakeIV.h7⟩
  let v := (blakeSchedule ++ blakeSchedule.take 2).foldl (fun v s => b2round v m s) v
  ⟨xor64 h.h0 (xor64 v.v0 v.v8), xor64 h.h1 (xor64 v.v1 v.v9),
   xor64 h.h2 (xor64 v.v2 v.v10), xor64 h.h3 (xor64 v.v3 v.v11),
   xor64 h.h4 (xor64 v.v4 v.v12), xor64 h.h5 (xor64 v.v5 v.v13),
   xor64 h.h6 (xor64 v.v6 v.v14), xor64 h.h7 (xor64 v.v7 v.v15)⟩

/-- Little-endian 64-bit word read at byte offset `off`; bytes past the end
of the message read as the zero padding of the final block. -/
def leWord (msg : List Nat) (off : Nat) : Nat :=
  msg.getD off 0 % 256 + msg.getD (off + 1) 0 % 256 * 2 ^ 8 +
  msg.getD (off + 2) 0 % 256 * 2 ^ 16 + msg.getD (off + 3) 0 % 256 * 2 ^ 24 +
  msg.getD (off + 4) 0 % 256 * 2 ^ 32 + msg.getD (off + 5) 0 % 256 * 2 ^ 40 +
  msg.getD (off + 6) 0 % 256 * 2 ^ 48 + msg.getD (off + 7) 0 % 256 * 2 ^ 56

/-- The 16 message words of 128-byte block number `i`. -/
def blockWords (msg : List Nat) (i : Nat) : List Nat :=
  (List.range 16).map (fun w => leWord msg (128 * i + 8 * w))

/-- Number of 128-byte BLAKE2b blocks (an empty message is hashed as one
all-zero block). -/
def b2NumBlocks (len : Nat) : Nat :=
  max 1 ((len + 127) / 128)

/-- Final chaining state after absorbing the whole message. -/
def blake2bFinal (nn : Nat) (msg : List Nat) : B2St :=
  let nb := b2NumBlocks msg.length
  (List.range nb).foldl
    (fun st i =>
      if i + 1 = nb then b2compress st (blockWords msg i) msg.length true
      else b2compress st (blockWords msg i) (128 * (i + 1)) false)
    (b2init nn)

/-- Little-endian byte serialisation of a 64-bit word. -/
def wordLE (x : Nat) : List Nat :=
  [x % 256, x / 2 ^ 8 % 256, x / 2 ^ 16 % 256, x / 2 ^ 24 % 256,
   x / 2 ^ 32 % 256, x / 2 ^ 40 % 256, x / 2 ^ 48 % 256, x / 2 ^ 56 % 256]

/-- Byte serialisation of the chaining state (64 bytes). -/
def b2bytes (st : B2St) : List Nat :=
  wordLE st.h0 ++ wordLE st.h1 ++ wordLE st.h2 ++ wordLE st.h3 ++
  wordLE st.h4 ++ wordLE st.h5 ++ wordLE st.h6 ++ wordLE st.h7

/-- BLAKE2b digest of `msg` with digest length `nn` bytes
(defined for 1 ≤ nn ≤ 64). -/
def blake2b (nn : Nat) (msg : List Nat) : List Nat :=
  (b2bytes (blake2bFinal nn msg)).take nn

theorem b2bytes_length (st : B2St) : (b2bytes st).length = 64 := by
  simp [b2bytes, wordLE]

theorem blake2b_length (nn : Nat) (msg : List Nat) :
    (blake2b nn msg).length = min nn 64 := by
  simp [blake2b, b2bytes_length]

/-! ## SHA-256 (FIPS 180-4), HMAC (RFC 2104) and PBKDF2 (RFC 2898)

Concrete implementations of the key-derivation primitives used by
`gen_keypair_from_seed`; 32-bit words are `Nat` values kept below `2 ^ 32`
by explicit reduction. -/

def M32 : Nat := 2 ^ 32

def add32 (a b : Nat) : Nat := (a + b) % M32

/-- Right rotation of a 32-bit word. -/
def ror32 (x n : Nat) : Nat :=
  (x / 2 ^ n + x % 2 ^ n * 2 ^ (32 - n)) % M32

/-- SHA-256 working state: eight 32-bit words. -/
structure ShaSt where
  sa : Nat
  sb : Nat
  sc : Nat
  sd : Nat
  se : Nat
  sf : Nat
  sg : Nat
  sh : Nat

/-- SHA-256 initial hash value. -/
def shaIV : ShaSt :=
  ⟨1779033703, 3144134277, 1013904242, 2773480762,
   1359893119, 2600822924, 528734635, 1541459225⟩

/-- SHA-256 round constants. -/
def shaK : List Nat :=
  [1116352408, 1899447441, 3049323471, 3921009573, 961987163, 1508970993,
   2453635748, 2870763221, 3624381080, 310598401, 607225278, 1426881987,
   1925078388, 2162078206, 2614888103, 3248222580, 3835390401, 4022224774,
   264347078, 604807628, 770255983, 1249150122, 1555081692, 1996064986,
   2554220882, 2821834349, 2952996808, 3210313671, 3336571891, 3584528711,
   113926993, 338241895, 666307205, 773529912, 1294757372, 1396182291,
   1695183700, 1986661051, 2177026350, 2456956037, 2730485921, 2820302411,
   3259730800, 3345764771, 3516065817, 3600352804, 4094571909, 275423344,
   430227734, 506948616, 659060556, 883997877, 958139571, 1322822218,
   1537002063, 1747873779, 1955562222, 2024104815, 2227730452, 2361852424,
   2428436474, 2756734187, 3204031479, 3329325298]

/-- Big-endian 32-bit word read at byte offset `off`. -/
def beWord (msg : List Nat) (off : Nat) : Nat :=
  msg.getD off 0 % 256 * 2 ^ 24 + msg.getD (off + 1) 0 % 256 * 2 ^ 16 +
  msg.getD (off + 2) 0 % 256 * 2 ^ 8 + msg.getD (off + 3) 0 % 256

def shaLowS0 (x : Nat) : Nat := Nat.xor (ror32 x 7) (Nat.xor (ror32 x 18) (x / 2 ^ 3))

def shaLowS1 (x : Nat) : Nat := Nat.xor (ror32 x 17) (Nat.xor (ror32 x 19) (x / 2 ^ 10))

def shaBigS0 (x : Nat) : Nat := Nat.xor (ror32 x 2) (Nat.xor (ror32 x 13) (ror32 x 22))

def shaBigS1 (x : Nat) : Nat := Nat.xor (ror32 x 6) (Nat.xor (ror32 x 11) (ror32 x 25))

def shaCh (x y z : Nat) : Nat :=
  Nat.xor (Nat.land x y) (Nat.land (Nat.xor x (M32 - 1)) z)

def shaMaj (x y z : Nat) : Nat :=
  Nat.xor (Nat.land x y) (Nat.xor (Nat.land x z) (Nat.land y z))

/-- The 64-entry message schedule of one 64-byte block. -/
def shaSchedule (block : List Nat) : List Nat :=
  let w16 := (List.range 16).map (fun i => beWord block (4 * i))
  (List.range 48).foldl
    (fun w _ =>
      let n := w.length
      w ++ [add32 (add32 (shaLowS1 (w.getD (n - 2) 0)) (w.getD (n - 7) 0))
              (add32 (shaLowS0 (w.getD (n - 15) 0)) (w.getD (n - 16) 0))])
    w16

/-- One SHA-256 round, consuming a `(K, W)` pair. -/
def shaRound (st : ShaSt) (kw : Nat × Nat) : ShaSt :=
  let t1 := add32 st.sh (add32 (shaBigS1 st.se)
    (add32 (shaCh st.se st.sf st.sg) (add32 kw.1 kw.2)))
  let t2 := add32 (shaBigS0 st.sa) (shaMaj st.sa st.sb st.sc)
  ⟨add32 t1 t2, st.sa, st.sb, st.sc, add32 st.sd t1, st.se, st.sf, st.sg⟩

/-- SHA-256 compression of one 64-byte block. -/
def shaCompress (st : ShaSt) (block : List Nat) : ShaSt :=
  let w := shaSchedule block
  let fin := (shaK.zip w).foldl shaRound st
  ⟨add32 st.sa fin.sa, add32 st.sb fin.sb, add32 st.sc fin.sc, add32 st.sd fin.sd,
   add32 st.se fin.se, add32 st.sf fin.sf, add32 st.sg fin.sg, add32 st.sh fin.sh⟩

/-- Big-endian 64-bit length field of the SHA-256 padding. -/
def bePad64 (n : Nat) : List Nat :=
  [n / 2 ^ 56 % 256, n / 2 ^ 48 % 256, n / 2 ^ 40 % 256, n / 2 ^ 32 % 256,
   n / 2 ^ 24 % 256, n / 2 ^ 16 % 256, n / 2 ^ 8 % 256, n % 256]

/-- SHA-256 message padding: `0x80`, zeros to 56 mod 64, then the bit
length as a big-endian 64-bit integer. -/
def shaPad (msg : List Nat) : List Nat :=
  msg ++ 128 :: List.replicate ((64 - (msg.length + 9) % 64) % 64) 0 ++
    bePad64 (8 * msg.length)

/-- Big-endian byte serialisation of the SHA-256 state (32 bytes). -/
def shaBytes (st : ShaSt) : List Nat :=
  [st.sa / 2 ^ 24 % 256, st.sa / 2 ^ 16 % 256, st.sa / 2 ^ 8 % 256, st.sa % 256,
   st.sb / 2 ^ 24 % 256, st.sb / 2 ^ 16 % 256, st.sb / 2 ^ 8 % 256, st.sb % 256,
   st.sc / 2 ^ 24 % 256, st.sc / 2 ^ 16 % 256, st.sc / 2 ^ 8 % 256, st.sc % 256,
   st.sd / 2 ^ 24 % 256, st.sd / 2 ^ 16 % 256, st.sd / 2 ^ 8 % 256, st.sd % 256,
   st.se / 2 ^ 24 % 256, st.se / 2 ^ 16 % 256, st.se / 2 ^ 8 % 256, st.se % 256,
   st.sf / 2 ^ 24 % 256, st.sf / 2 ^ 16 % 256, st.sf / 2 ^ 8 % 256, st.sf % 256,
   st.sg / 2 ^ 24 % 256, st.sg / 2 ^ 16 % 256, st.sg / 2 ^ 8 % 256, st.sg % 256,
   st.sh / 2 ^ 24 % 256, st.sh / 2 ^ 16 % 256, st.sh / 2 ^ 8 % 256, st.sh % 256]

/-- SHA-256 digest (32 bytes) of a byte sequence. -/
def sha256 (msg : List Nat) : List Nat :=
  let p := shaPad msg
  let nb := p.length / 64
  shaBytes ((List.range nb).foldl
    (fun st i => shaCompress st ((p.drop (64 * i)).take 64)) shaIV)

/-- HMAC-SHA-256 (RFC 2104): keys longer than the 64-byte block are first
hashed, then zero-padded to the block size. -/
def hmacSha256 (key msg : List Nat) : List Nat :=
  let k0 := if 64 < key.length then sha256 key else key
  let k := k0 ++ List.replicate (64 - k0.length) 0
  let ipad := k.map (fun b => Nat.xor (b % 256) 0x36)
  let opad := k.map (fun b => Nat.xor (b % 256) 0x5c)
  sha256 (opad ++ sha256 (ipad ++ msg))

/-- Big-endian 32-bit block index of PBKDF2. -/
def be32 (n : Nat) : List Nat :=
  [n / 2 ^ 24 % 256, n / 2 ^ 16 % 256, n / 2 ^ 8 % 256, n % 256]

/-- The PBKDF2 block function F: the xor of the `c`-fold PRF iteration
chain starting from `salt || INT(i)`.  `prf` is the pseudorandom function
already keyed with the password. -/
def pbkdf2F (prf : List Nat → List Nat) (salt : List Nat) (c i : Nat) : List Nat :=
  let u1 := prf (salt ++ be32 i)
  ((List.range (c - 1)).foldl
    (fun acc _ =>
      let u := prf acc.2
      (List.zipWith Nat.xor acc.1 u, u))
    (u1, u1)).1

/-- PBKDF2 (RFC 2898 §5.2) with hash length `hLen`, producing `dkLen`
bytes.  `prf` is the pseudorandom function already keyed with the
password, mirroring the `Mac`-based interface of the Rust `pbkdf2`
the source calls. -/
def pbkdf2 (prf : List Nat → List Nat) (salt : List Nat) (c dkLen hLen : Nat) : List Nat :=
  let l := (dkLen + hLen - 1) / hLen
  (((List.range l).map (fun i => pbkdf2F prf salt c (i + 1))).flatten).take dkLen

/-! ## The streaming hasher interface

The source drives BLAKE2b through the incremental `Digest` interface
(`new`, `input`, `result`).  Incremental absorption of byte chunks is
modelled by buffering: feeding chunks successively and finalising is, by
the definition of BLAKE2b, the digest of their concatenation. -/

structure Blake2bHasher where
  outLen : Nat
  buf : List Nat

def Blake2bHasher.new (n : Nat) : Blake2bHasher := ⟨n, []⟩

def Blake2bHasher.update (h : Blake2bHasher) (d : List Nat) : Blake2bHasher :=
  ⟨h.outLen, h.buf ++ d⟩

def Blake2bHasher.result (h : Blake2bHasher) : List Nat :=
  blake2b h.outLen h.buf

/-! ## src/crypto.rs -/

/-- `KeyPair` of src/crypto.rs: `public_key: [u8; 32]`,
`private_key: [u8; 64]`. -/
structure KeyPair where
  public_key : List Nat
  private_key : List Nat
deriving DecidableEq

/-- `gen_keypair_from_seed` of src/crypto.rs lines 31-42: key an
HMAC-SHA-256 instance with the seed, run PBKDF2 over the empty salt for
1000 iterations producing a 32-byte derived key, and expand that key into
an ed25519 keypair.  `edKeypair` models `ed25519::keypair` of the external
crypto crate, returning `(private_key, public_key)`. -/
def gen_keypair_from_seed (edKeypair : List Nat → List Nat × List Nat)
    (seed : List Nat) : KeyPair :=
  let mac := hmacSha256 seed
  let derived_key := pbkdf2 mac [] 1000 32 32
  let pq := edKeypair derived_key
  ⟨pq.2, pq.1⟩

/-- `derive_child_seed` of src/crypto.rs lines 44-51: a BLAKE2b hasher
with digest length `master.len()`, fed `master` then `seed`, finalised. -/
def derive_child_seed (master seed : List Nat) : List Nat :=
  (((Blake2bHasher.new master.length).update master).update seed).result

/-! ## src/error.rs

`SkynetError` restricted to the variants reachable from the registry
module; the payloads of the transport variants are irrelevant to the
claims and are dropped. -/

inductive SkynetError where
  | HyperError
  | Utf8Error
  | PortalResponse (body : List Nat)
  | InvalidSignature
deriving DecidableEq

/-- Outcome of a Rust call that may also diverge by panicking
(`unwrap` on `Err`): `panicked` is the panic, distinct from every
`Result` value. -/
inductive Outcome (α : Type) where
  | ok (value : α)
  | err (e : SkynetError)
  | panicked
deriving DecidableEq

/-! ## src/registry.rs: data model -/

/-- `RegistryEntry` of src/registry.rs lines 15-20. -/
structure RegistryEntry where
  data_key : List Nat
  data : List Nat
  revision : Nat
deriving DecidableEq

/-- `SignedRegistryEntry` of src/registry.rs lines 22-26. -/
structure SignedRegistryEntry where
  entry : RegistryEntry
  signature : List Nat
deriving DecidableEq

/-- `EntryOptions` of src/registry.rs lines 28-34. -/
structure EntryOptions where
  endpoint_path : List Nat
  api_key : Option (List Nat)
  custom_user_agent : Option (List Nat)
  hashed_data_key_hex : Bool
deriving DecidableEq

/-- `EntryOptions::default` of src/registry.rs lines 36-45. -/
def defaultEntryOptions : EntryOptions :=
  ⟨asciiBytes "/skynet/registry", none, none, false⟩

/-- `DEFAULT_GET_ENTRY_TIMEOUT` of src/registry.rs line 13. -/
def DEFAULT_GET_ENTRY_TIMEOUT : Nat := 5

/-- `GetResponse` of src/registry.rs lines 69-74: the deserialised lookup
response; `data` and `signature` hold the bytes of the hex strings. -/
structure GetResponse where
  data : List Nat
  revision : Nat
  signature : List Nat
deriving DecidableEq

/-! ## src/registry.rs: canonical hashing -/

/-- `hash_data_key` of src/registry.rs lines 47-57: the data key unchanged
when `hashed_data_key_hex` is set, otherwise the hex encoding of the
32-byte BLAKE2b digest of its bytes. -/
def hash_data_key (data_key : List Nat) (hashed_data_key_hex : Bool) : List Nat :=
  if hashed_data_key_hex then
    data_key
  else
    hexEncode (((Blake2bHasher.new 32).update data_key).result)

/-- `hash_registry_entry` of src/registry.rs lines 59-67: a 32-byte
BLAKE2b hasher fed, in order, the normalised data key, the raw data and
the decimal string of the revision. -/
def hash_registry_entry (entry : RegistryEntry) (hashed_data_key_hex : Bool) : List Nat :=
  ((((Blake2bHasher.new 32).update
      (hash_data_key entry.data_key hashed_data_key_hex)).update
      entry.data).update
      (decimalBytes entry.revision)).result

/-! ## src/util.rs: URI construction -/

/-- The parsed URI produced by `make_uri` (hyper `Uri::builder`): scheme,
authority and path-with-query.  Authority parsing is modelled as the
identity on the host bytes. -/
structure Uri where
  scheme : List Nat
  authority : List Nat
  path_and_query : List Nat
deriving DecidableEq

/-- Rust `str::split` on the separator `"://"` (bytes 58, 47, 47). -/
def splitSchemeSep : List Nat → List (List Nat)
  | [] => [[]]
  | 58 :: 47 :: 47 :: rest => [] :: splitSchemeSep rest
  | c :: rest =>
    match splitSchemeSep rest with
    | [] => [[c]]
    | p :: ps => (c :: p) :: ps

/-- `make_uri` of src/util.rs lines 8-52.  The `api_key` branch in the
source is commented out: the authority is the bare host and `api_key` is
never used.  The source indexes `parts[1]` without a check (panicking on a
portal URL with no `"://"`); the model totalises that lookup with an empty
default, which no claim exercises.  The query map is serialised in the
order of the model's association list. -/
def make_uri (portal_url path : List Nat) (api_key : Option (List Nat))
    (extra_path : Option (List Nat)) (query : List (List Nat × List Nat)) : Uri :=
  let parts := splitSchemeSep portal_url
  let scheme := parts.getD 0 []
  let host := parts.getD 1 []
  let extra : List Nat :=
    match extra_path with
    | some e => 47 :: e
    | none => []
  let qs : List Nat :=
    if query.isEmpty then []
    else 63 :: List.intercalate [38] (query.map (fun kv => kv.1 ++ 61 :: kv.2))
  ⟨scheme, host, path ++ extra ++ qs⟩

/-! ## src/registry.rs: the fetch and publish pipelines -/

/-- The request built by `get_registry_entry` (src/registry.rs lines
82-100): method GET, the query map `publickey` / `datakey` / `timeout` in
insertion order, the URI built by `make_uri`, and the optional custom
user agent header. -/
structure EntryGetRequest where
  method : List Nat
  uri : Uri
  user_agent : Option (List Nat)
deriving DecidableEq

def get_registry_entry_request (portal_url public_key data_key : List Nat)
    (opt : EntryOptions) : EntryGetRequest :=
  let query : List (List Nat × List Nat) :=
    [(asciiBytes "publickey", asciiBytes "ed25519:" ++ hexEncode public_key),
     (asciiBytes "datakey", hash_data_key data_key opt.hashed_data_key_hex),
     (asciiBytes "timeout", decimalBytes DEFAULT_GET_ENTRY_TIMEOUT)]
  ⟨asciiBytes "GET",
   make_uri portal_url opt.endpoint_path opt.api_key none query,
   opt.custom_user_agent⟩

/-- Response processing of `get_registry_entry` (src/registry.rs lines
103-123).  `transport` is the outcome of the two hyper awaits: `none` for
a transport failure (`HyperError`), `some body` for the raw response
bytes.  `parse` models `serde_json::from_str::<GetResponse>`; `verify`
models `ed25519::verify` applied to (message, public key, signature).
The two `FromHex::from_hex(..).unwrap()` calls panic on invalid hex. -/
def get_registry_entry_result (parse : List Nat → Option GetResponse)
    (verify : List Nat → List Nat → List Nat → Bool)
    (public_key data_key : List Nat) (opt : EntryOptions)
    (transport : Option (List Nat)) : Outcome SignedRegistryEntry :=
  match transport with
  | none => .err .HyperError
  | some body =>
    if utf8Valid body then
      match parse body with
      | none => .err (.PortalResponse body)
      | some res =>
        match hexDecode res.data with
        | none => .panicked
        | some d =>
          match hexDecode res.signature with
          | none => .panicked
          | some s =>
            let entry : SignedRegistryEntry := ⟨⟨data_key, d, res.revision⟩, s⟩
            let hash := hash_registry_entry entry.entry opt.hashed_data_key_hex
            if verify hash public_key entry.signature then .ok entry
            else .err .InvalidSignature
    else .err .Utf8Error

/-- The JSON payload submitted by `set_registry_entry` (src/registry.rs
lines 152-161). -/
structure SetPayload where
  publickey_algorithm : List Nat
  publickey_key : List Nat
  datakey : List Nat
  revision : Nat
  data : List Nat
  signature : List Nat
deriving DecidableEq

/-- The request built by `set_registry_entry` (src/registry.rs lines
133-163): method POST, an empty query map, the signed payload as body.
`sign` models `ed25519::signature` applied to (message, private key). -/
structure EntrySetRequest where
  method : List Nat
  uri : Uri
  user_agent : Option (List Nat)
  payload : SetPayload
deriving DecidableEq

def set_registry_entry_request (sign : List Nat → List Nat → List Nat)
    (portal_url public_key private_key : List Nat) (entry : RegistryEntry)
    (opt : EntryOptions) : EntrySetRequest :=
  let hash := hash_registry_entry entry opt.hashed_data_key_hex
  let signature := sign hash private_key
  ⟨asciiBytes "POST",
   make_uri portal_url opt.endpoint_path opt.api_key none [],
   opt.custom_user_agent,
   ⟨asciiBytes "ed25519", public_key,
    hash_data_key entry.data_key opt.hashed_data_key_hex,
    entry.revision, entry.data, signature⟩⟩

/-- An HTTP response as delivered by the transport: status code and raw
body bytes. -/
structure HttpResponse where
  status : Nat
  body : List Nat
deriving DecidableEq

/-- Response processing of `set_registry_entry` (src/registry.rs lines
164-166): the single hyper await is mapped to `HyperError` on transport
failure, and the response value itself is dropped — `Ok(())` is returned
without looking at it. -/
def set_registry_entry_result (transport : Option HttpResponse) :
    Except SkynetError Unit :=
  match transport with
  | none => .error .HyperError
  | some _ => .ok ()

/-! ## The ed25519 signing algebra

Modelled from the spec: `ed25519::signature` and `ed25519::verify` are an
external crate absent from this repository; the spec describes them as
standard ed25519 ("sign ... produces a deterministic ed25519 signature",
"verify ... standard ed25519 verification").  The algebra they satisfy is
modelled over an arbitrary commutative group of exponent dividing the
base-point order `L` — that is, a module over `ZMod L`, which the ed25519
base-point subgroup is.  `base` models the base point B, `chal` the
challenge hash `H(R, A, M)` reduced mod `L`; a secret scalar `a` has
public key `a • base`; a signature is the pair `(R, S) = (r • B, r +
H(R, A, M) * a)`, and verification checks `S • B = R + H(R, A, M) • A`. -/

/-- The order of the ed25519 base-point subgroup. -/
def edGroupOrder : Nat := 2 ^ 252 + 27742317777372353535851937790883648493

structure EdScheme (G : Type) [AddCommGroup G] [Module (ZMod edGroupOrder) G] where
  base : G
  chal : G → G → List Nat → ZMod edGroupOrder

/-- Signing a message with secret scalar `a` and nonce scalar `r`. -/
def edSign {G : Type} [AddCommGroup G] [Module (ZMod edGroupOrder) G]
    (sch : EdScheme G) (a r : ZMod edGroupOrder) (msg : List Nat) :
    G × ZMod edGroupOrder :=
  (r • sch.base,
   r + sch.chal (r • sch.base) (a • sch.base) msg * a)

/-- Verifying a signature `(R, S)` on a message under public key `pk`. -/
def edVerify {G : Type} [AddCommGroup G] [Module (ZMod edGroupOrder) G]
    [DecidableEq G] (sch : EdScheme G) (pk : G) (msg : List Nat)
    (sig : G × ZMod edGroupOrder) : Bool :=
  decide (sig.2 • sch.base = sig.1 + sch.chal sig.1 pk msg • pk)

/-! ## Spec-side definitions

Independent definitions written from the spec's words, to be compared
with the embeddings above. -/

/-- The spec's `normalize_data_key` (§4.2): "if `already_hashed`, return
`data_key` unchanged; otherwise compute a 32-byte BLAKE2b hash of the
UTF-8 bytes of `data_key` and hex-encode it". -/
def normalize_data_key_spec (data_key : List Nat) (already_hashed : Bool) : List Nat :=
  if already_hashed then data_key else hexEncode (blake2b 32 data_key)

/-- The spec's `canonical_hash` (§4.2): "BLAKE2b-256 over the
concatenation, in order, of: (a) the UTF-8 bytes of the normalized (hex)
data key, (b) the raw `data` bytes, (c) the decimal-ASCII string
representation of `revision`". -/
def canonical_hash_spec (entry : RegistryEntry) (already_hashed : Bool) : List Nat :=
  blake2b 32 (normalize_data_key_spec entry.data_key already_hashed ++
    entry.data ++ decimalBytes entry.revision)

/-- The spec's `derive_child_seed` (§4.1): "BLAKE2b configured to output
`len(master)` bytes, feeding `master` then `label` as successive inputs
before finalizing" — the digest of the concatenation. -/
def derive_child_seed_spec (master label : List Nat) : List Nat :=
  blake2b master.length (master ++ label)

/-- PBKDF2 instantiated as the spec's §4.1 key-stretching stage: password,
salt, iteration count, derived-key length, with HMAC-SHA-256 (hash length
32) as the pseudorandom function. -/
def pbkdf2HmacSha256 (password salt : List Nat) (c dkLen : Nat) : List Nat :=
  pbkdf2 (hmacSha256 password) salt c dkLen 32

/-- The spec's `derive_keypair` (§4.1): PBKDF2-HMAC-SHA-256 over the seed
as password with empty salt, 1000 iterations and a 32-byte derived key,
followed by ed25519 keypair expansion of the derived key. -/
def derive_keypair_spec (edKeypair : List Nat → List Nat × List Nat)
    (seed : List Nat) : KeyPair :=
  let pq := edKeypair (pbkdf2HmacSha256 seed [] 1000 32)
  ⟨pq.2, pq.1⟩

/-- A byte is a lower-case hex digit (`0`..`9`, `a`..`f`). -/
def isLowerHexDigit (c : Nat) : Bool :=
  (48 ≤ c && c ≤ 57) || (97 ≤ c && c ≤ 102)

/-! ## Supporting lemmas -/

theorem hexEncode_length (bs : List Nat) : (hexEncode bs).length = 2 * bs.length := by
  induction bs with
  | nil => rfl
  | cons b tl ih =>
    simp [hexEncode] at ih ⊢
    omega

theorem hexCharCode_lower (n : Nat) (h : n < 16) :
    isLowerHexDigit (hexCharCode n) = true := by
  unfold isLowerHexDigit hexCharCode
  split <;> simp <;> omega

theorem hash_data_key_true_id (x : List Nat) : hash_data_key x true = x := by
  simp [hash_data_key]

theorem hexEncode_all_lower (bs : List Nat) :
    (hexEncode bs).all isLowerHexDigit = true := by
  induction bs with
  | nil => rfl
  | cons b tl ih =>
    simp only [hexEncode, List.foldr_cons, List.all_cons] at ih ⊢
    rw [hexCharCode_lower _ (Nat.mod_lt _ (by norm_num)),
        hexCharCode_lower _ (Nat.mod_lt _ (by norm_num))]
    simpa using ih

/-! ## Claims -/

/-- C3: for every `RegistryEntry` and flag, the canonical hash computed by
`hash_registry_entry` equals the 32-byte BLAKE2b-256 digest of the
concatenation, in order, of the normalised hex data key, the raw data
bytes, and the decimal-ASCII revision string — and nothing else — and its
length is 32 bytes. -/
theorem hash_registry_entry_canonical (entry : RegistryEntry)
    (hashed_data_key_hex : Bool) :
    hash_registry_entry entry hashed_data_key_hex =
      canonical_hash_spec entry hashed_data_key_hex ∧
    (hash_registry_entry entry hashed_data_key_hex).length = 32 := by
  constructor
  · simp [hash_registry_entry, canonical_hash_spec, hash_data_key,
      normalize_data_key_spec, Blake2bHasher.new, Blake2bHasher.update,
      Blake2bHasher.result, List.append_assoc]
  · simp [hash_registry_entry, Blake2bHasher.new, Blake2bHasher.update,
      Blake2bHasher.result, blake2b_length]

/-- C6: for every master seed of a valid BLAKE2b digest length (1..=64
bytes, the domain the underlying hash admits) and every label,
`derive_child_seed` equals the BLAKE2b digest of length `len(master)` of
`master` followed by `label`, and the child seed has length exactly
`len(master)`. -/
theorem derive_child_seed_matches_spec (master label : List Nat)
    (h1 : 1 ≤ master.length) (h64 : master.length ≤ 64) :
    derive_child_seed master label = derive_child_seed_spec master label ∧
    (derive_child_seed master label).length = master.length := by
  constructor
  · simp [derive_child_seed, derive_child_seed_spec, Blake2bHasher.new,
      Blake2bHasher.update, Blake2bHasher.result]
  · simp [derive_child_seed, Blake2bHasher.new, Blake2bHasher.update,
      Blake2bHasher.result, blake2b_length]
    omega

theorem derive_child_seed_matches_spec_witness :
    (1 ≤ ([1, 2, 3, 4] : List Nat).length ∧ ([1, 2, 3, 4] : List Nat).length ≤ 64) ∧
    (derive_child_seed [1, 2, 3, 4] [5, 6] = derive_child_seed_spec [1, 2, 3, 4] [5, 6] ∧
     (derive_child_seed [1, 2, 3, 4] [5, 6]).length = ([1, 2, 3, 4] : List Nat).length) :=
  ⟨⟨by decide, by decide⟩,
   derive_child_seed_matches_spec [1, 2, 3, 4] [5, 6] (by decide) (by decide)⟩

/-- C7: `hash_data_key` with `already_hashed = true` is the identity; with
`already_hashed = false` it is the lower-case hex encoding (64 hex
characters) of the 32-byte BLAKE2b digest of the data key bytes; and it is
idempotent when `already_hashed = true` is passed with its own output. -/
theorem hash_data_key_normalization (data_key : List Nat) :
    hash_data_key data_key true = data_key ∧
    hash_data_key data_key false = normalize_data_key_spec data_key false ∧
    (hash_data_key data_key false).length = 64 ∧
    (hash_data_key data_key false).all isLowerHexDigit = true ∧
    hash_data_key (hash_data_key data_key false) true = hash_data_key data_key false := by
  refine ⟨hash_data_key_true_id _, ?_, ?_, ?_, hash_data_key_true_id _⟩
  · simp [hash_data_key, normalize_data_key_spec, Blake2bHasher.new,
      Blake2bHasher.update, Blake2bHasher.result]
  · simp [hash_data_key, Blake2bHasher.new, Blake2bHasher.update,
      Blake2bHasher.result, hexEncode_length, blake2b_length]
  · simp only [hash_data_key, if_neg Bool.false_ne_true]
    exact hexEncode_all_lower _

/-- C8: whenever the HTTP transport delivers any response at all,
`set_registry_entry` returns `Ok(())` without inspecting the response's
status code or body; a portal-side rejection delivered as a non-2xx
response is reported as success. -/
theorem set_registry_entry_ignores_response (status : Nat) (body : List Nat) :
    set_registry_entry_result (some ⟨status, body⟩) = Except.ok () := by
  rfl

/-- C9: the lookup request built by `get_registry_entry` is a GET whose
query parameters are exactly `publickey = "ed25519:" ++ hex(public_key)`,
`datakey = hash_data_key(data_key, opt.hashed_data_key_hex)` and
`timeout = "5"`, serialised into the URI by `make_uri`. -/
theorem get_registry_entry_request_shape (portal_url public_key data_key : List Nat)
    (opt : EntryOptions) :
    get_registry_entry_request portal_url public_key data_key opt =
      ⟨asciiBytes "GET",
       make_uri portal_url opt.endpoint_path opt.api_key none
         [(asciiBytes "publickey", asciiBytes "ed25519:" ++ hexEncode public_key),
          (asciiBytes "datakey", hash_data_key data_key opt.hashed_data_key_hex),
          (asciiBytes "timeout", asciiBytes "5")],
       opt.custom_user_agent⟩ := by
  have h5 : decimalBytes DEFAULT_GET_ENTRY_TIMEOUT = asciiBytes "5" := by decide
  simp [get_registry_entry_request, h5]

/-- C10: neither the constructed URI nor any other observable part of a
fetch or publish depends on `opt.api_key`: two calls differing only in the
`api_key` option build identical requests and produce identical results. -/
theorem api_key_never_transmitted (portal_url path public_key data_key private_key : List Nat)
    (ua : Option (List Nat)) (hx : Bool) (k1 k2 : Option (List Nat))
    (extra_path : Option (List Nat)) (query : List (List Nat × List Nat))
    (sign : List Nat → List Nat → List Nat)
    (parse : List Nat → Option GetResponse)
    (verify : List Nat → List Nat → List Nat → Bool)
    (entry : RegistryEntry) (transport : Option (List Nat)) :
    make_uri portal_url path k1 extra_path query =
      make_uri portal_url path k2 extra_path query ∧
    get_registry_entry_request portal_url public_key data_key ⟨path, k1, ua, hx⟩ =
      get_registry_entry_request portal_url public_key data_key ⟨path, k2, ua, hx⟩ ∧
    set_registry_entry_request sign portal_url public_key private_key entry ⟨path, k1, ua, hx⟩ =
      set_registry_entry_request sign portal_url public_key private_key entry ⟨path, k2, ua, hx⟩ ∧
    get_registry_entry_result parse verify public_key data_key ⟨path, k1, ua, hx⟩ transport =
      get_registry_entry_result parse verify public_key data_key ⟨path, k2, ua, hx⟩ transport :=
  ⟨rfl, rfl, rfl, rfl⟩

/-- C5: `gen_keypair_from_seed` is deterministic and equals the spec's
composition: PBKDF2 with HMAC-SHA-256 as the pseudorandom function, the
seed as password, empty salt, 1000 iterations and a 32-byte derived key,
followed by ed25519 keypair expansion (64-byte private key, 32-byte
public key, by the hypothesis recording `ed25519::keypair`'s fixed-size
return type `([u8; 64], [u8; 32])`). -/
theorem gen_keypair_from_seed_matches_spec
    (edKeypair : List Nat → List Nat × List Nat)
    (hk : ∀ d, (edKeypair d).1.length = 64 ∧ (edKeypair d).2.length = 32)
    (seed : List Nat) :
    gen_keypair_from_seed edKeypair seed = derive_keypair_spec edKeypair seed ∧
    (∀ seed2, seed2 = seed →
      gen_keypair_from_seed edKeypair seed2 = gen_keypair_from_seed edKeypair seed) ∧
    (gen_keypair_from_seed edKeypair seed).private_key.length = 64 ∧
    (gen_keypair_from_seed edKeypair seed).public_key.length = 32 := by
  refine ⟨rfl, fun seed2 h => h ▸ rfl, ?_, ?_⟩
  · exact (hk _).1
  · exact (hk _).2

theorem gen_keypair_from_seed_matches_spec_witness :
    (∀ d : List Nat,
      ((fun _ => (List.replicate 64 0, List.replicate 32 0)) d : List Nat × List Nat).1.length = 64 ∧
      ((fun _ => (List.replicate 64 0, List.replicate 32 0)) d : List Nat × List Nat).2.length = 32) ∧
    (gen_keypair_from_seed (fun _ => (List.replicate 64 0, List.replicate 32 0)) [1, 2, 3] =
       derive_keypair_spec (fun _ => (List.replicate 64 0, List.replicate 32 0)) [1, 2, 3] ∧
     (∀ seed2, seed2 = [1, 2, 3] →
       gen_keypair_from_seed (fun _ => (List.replicate 64 0, List.replicate 32 0)) seed2 =
         gen_keypair_from_seed (fun _ => (List.replicate 64 0, List.replicate 32 0)) [1, 2, 3]) ∧
     (gen_keypair_from_seed (fun _ => (List.replicate 64 0, List.replicate 32 0)) [1, 2, 3]).private_key.length = 64 ∧
     (gen_keypair_from_seed (fun _ => (List.replicate 64 0, List.replicate 32 0)) [1, 2, 3]).public_key.length = 32) :=
  ⟨fun _ => ⟨by simp, by simp⟩,
   gen_keypair_from_seed_matches_spec _ (fun _ => ⟨by simp, by simp⟩) [1, 2, 3]⟩

/-- C2: sign-then-verify round trip — for every registry entry, flag, and
keypair of the signing scheme (secret scalar with its public point),
verifying the entry's canonical hash against the public key and the
signature produced over that same canonical hash with the secret key
returns true. -/
theorem ed25519_sign_verify_roundtrip {G : Type} [AddCommGroup G]
    [Module (ZMod edGroupOrder) G] [DecidableEq G] (sch : EdScheme G)
    (a r : ZMod edGroupOrder) (entry : RegistryEntry) (hashed_data_key_hex : Bool) :
    edVerify sch (a • sch.base) (hash_registry_entry entry hashed_data_key_hex)
      (edSign sch a r (hash_registry_entry entry hashed_data_key_hex)) = true := by
  simp only [edVerify, edSign, decide_eq_true_eq]
  rw [add_smul, mul_smul]

/-- C1: `get_registry_entry` returns `Ok` only when ed25519 verification
of the reconstructed entry's canonical hash against the caller-supplied
public key and the decoded signature succeeds; when the pipeline reaches
verification and it fails, the result is exactly the payload-free
`InvalidSignature` error, so no field of the entry escapes. -/
theorem get_registry_entry_only_verified
    (parse : List Nat → Option GetResponse)
    (verify : List Nat → List Nat → List Nat → Bool)
    (public_key data_key : List Nat) (opt : EntryOptions)
    (transport : Option (List Nat)) :
    (∀ e, get_registry_entry_result parse verify public_key data_key opt transport =
        Outcome.ok e →
      verify (hash_registry_entry e.entry opt.hashed_data_key_hex) public_key
        e.signature = true) ∧
    (∀ body res d s, transport = some body → utf8Valid body = true →
      parse body = some res → hexDecode res.data = some d →
      hexDecode res.signature = some s →
      verify (hash_registry_entry ⟨data_key, d, res.revision⟩ opt.hashed_data_key_hex)
        public_key s = false →
      get_registry_entry_result parse verify public_key data_key opt transport =
        Outcome.err SkynetError.InvalidSignature) := by
  constructor
  · intro e he
    simp only [get_registry_entry_result] at he
    split at he
    · exact absurd he (by simp)
    · split at he
      · split at he
        · exact absurd he (by simp)
        · split at he
          · exact absurd he (by simp)
          · split at he
            · exact absurd he (by simp)
            · split at he
              · rename_i hv
                cases he
                exact hv
              · exact absurd he (by simp)
      · exact absurd he (by simp)
  · intro body res d s ht hu hp hd hs hv
    subst ht
    simp only [get_registry_entry_result, hu, hp, hd, hs, hv, if_true]
    simp

/-- A concrete well-formed JSON lookup response whose `signature` field is
valid hex but whose `data` field is not
(`\x7b` and `\x7d` are the brace characters). -/
def respBodyBadHex : List Nat :=
  asciiBytes "\x7b\"data\":\"zz\",\"revision\":0,\"signature\":\"00\"\x7d"

/-- Modelled from the spec: `serde_json::from_str::<GetResponse>` (an
external crate) evaluated at the concrete body `respBodyBadHex`, which it
deserialises successfully into `data = "zz"`, `revision = 0`,
`signature = "00"`. -/
def parseRespBodyBadHex : List Nat → Option GetResponse := fun b =>
  if b = respBodyBadHex then some ⟨asciiBytes "zz", 0, asciiBytes "00"⟩ else none

/-- C4: at a syntactically malformed response — well-formed JSON whose
`data` field is not valid hex — `get_registry_entry` does not return the
`PortalResponse` error the spec requires: the `FromHex::from_hex(..)
.unwrap()` on line 112 of src/registry.rs panics. -/
theorem get_registry_entry_bad_hex_panics :
    get_registry_entry_result parseRespBodyBadHex (fun _ _ _ => true)
      (List.replicate 32 1) (asciiBytes "data") defaultEntryOptions
      (some respBodyBadHex) = Outcome.panicked := by
  decide

/-- A concrete well-formed JSON lookup response with valid hex fields. -/
def respBodyOk : List Nat :=
  asciiBytes "\x7b\"data\":\"aa\",\"revision\":1,\"signature\":\"bb\"\x7d"

/-- Modelled from the spec: `serde_json::from_str::<GetResponse>`
evaluated at the concrete body `respBodyOk`. -/
def parseRespBodyOk : List Nat → Option GetResponse := fun b =>
  if b = respBodyOk then some ⟨asciiBytes "aa", 1, asciiBytes "bb"⟩ else none

theorem get_registry_entry_only_verified_witness :
    get_registry_entry_result parseRespBodyOk (fun _ _ _ => false)
      (List.replicate 32 1) (asciiBytes "data") defaultEntryOptions
      (some respBodyOk) = Outcome.err SkynetError.InvalidSignature :=
  (get_registry_entry_only_verified parseRespBodyOk (fun _ _ _ => false)
      (List.replicate 32 1) (asciiBytes "data") defaultEntryOptions
      (some respBodyOk)).2
    respBodyOk ⟨asciiBytes "aa", 1, asciiBytes "bb"⟩ [170] [187]
    rfl (by decide) (by decide) (by decide) (by decide) rfl
